import Mathlib

/-!
Verification of the pros-rs core: the ARM EHABI personality routine
(packages/pros/src/panic/unwind.rs, personality.rs) and the task-local
storage engine (pros/src/task.rs), shallowly embedded in Lean 4.

Machine words are modelled as natural numbers; 32-bit wrap-around is made
explicit with `% 2^32` exactly where the source performs a wrapping
operation or a mask.
-/

namespace PanicUnwind

/-- Decoded LSDA outcome, mirroring the variants of EHAction consumed in
unwind.rs (the decoder itself lives in panic/eh.rs; the personality routine
only pattern-matches on its result, so the decode result is an input of the
model). Landing-pad addresses are 32-bit words. -/
inductive EHAction where
  | none
  | cleanup (lpad : Nat)
  | catch (lpad : Nat)
  | filter (lpad : Nat)
  | terminate
deriving DecidableEq, Repr

/-- _Unwind_Reason_Code from unwind.rs lines 23-36. -/
inductive ReasonCode where
  | noReason
  | foreignExceptionCaught
  | fatalPhase2Error
  | fatalPhase1Error
  | normalStop
  | endOfStack
  | handlerFound
  | installContext
  | continueUnwind
  | failure
deriving DecidableEq, Repr

/-- _US_VIRTUAL_UNWIND_FRAME -/
def US_VIRTUAL_UNWIND_FRAME : Nat := 0
/-- _US_UNWIND_FRAME_STARTING -/
def US_UNWIND_FRAME_STARTING : Nat := 1
/-- _US_UNWIND_FRAME_RESUME -/
def US_UNWIND_FRAME_RESUME : Nat := 2
/-- _US_ACTION_MASK -/
def US_ACTION_MASK : Nat := 3
/-- _US_FORCE_UNWIND -/
def US_FORCE_UNWIND : Nat := 8

/-- UNWIND_POINTER_REG (r12, ARM scratch register). -/
def UNWIND_POINTER_REG : Nat := 12
/-- UNWIND_DATA_REG (r0, r1). -/
def UNWIND_DATA_REG : Nat × Nat := (0, 1)
/-- UNWIND_SP_REG (r13). -/
def UNWIND_SP_REG : Nat := 13
/-- UNWIND_IP_REG (r15). -/
def UNWIND_IP_REG : Nat := 15

/-- The core register file of the unwind context: register number to
32-bit word. Only the core-register class with UINT32 representation is
ever used by the source. -/
def RegFile := Nat → Nat

/-- _Unwind_GetGR: read a core register through _Unwind_VRS_Get. -/
def UnwindGetGR (regs : RegFile) (r : Nat) : Nat := regs r

/-- _Unwind_SetGR: write a core register through _Unwind_VRS_Set. -/
def UnwindSetGR (regs : RegFile) (r : Nat) (v : Nat) : RegFile :=
  Function.update regs r v

/-- _Unwind_GetIP: read r15 and clear the low (thumb) bit,
val.map_addr of v &&& the complement of 1 on a 32-bit address. -/
def UnwindGetIP (regs : RegFile) : Nat :=
  (UnwindGetGR regs UNWIND_IP_REG) &&& 0xFFFFFFFE

/-- _Unwind_GetIPInfo: always stores 0 to ip_before_insn on this target,
then returns _Unwind_GetIP. First component: the IP; second component: the
value written through ip_before_insn. -/
def UnwindGetIPInfo (regs : RegFile) : Nat × Nat :=
  (UnwindGetIP regs, 0)

/-- _Unwind_SetIP: propagate the thumb bit of the current r15 into the new
value by bitwise or, then write r15. -/
def UnwindSetIP (regs : RegFile) (value : Nat) : RegFile :=
  let thumb_state := (UnwindGetGR regs UNWIND_IP_REG) &&& 1
  UnwindSetGR regs UNWIND_IP_REG (value ||| thumb_state)

/-- Everything rust_eh_personality returns or writes: the reason code, the
final register file, the value written to the exception object's barrier
cache slot private[5] (if any), whether find_eh_action was invoked, and
whether __gnu_unwind_frame was invoked. -/
structure PersonalityResult where
  code : ReasonCode
  regs : RegFile
  barrierCache5 : Option Nat
  lsdaConsulted : Bool
  frameStepped : Bool

/-- continue_unwind (unwind.rs lines 161-170): invoke __gnu_unwind_frame
(whose outcome is the oracle frameStep) and translate NO_REASON to
CONTINUE_UNWIND, anything else to FAILURE. -/
def continue_unwind (frameStep : ReasonCode) (regs : RegFile)
    (consulted : Bool) : PersonalityResult :=
  { code := if frameStep = ReasonCode.noReason then ReasonCode.continueUnwind
      else ReasonCode.failure
    regs := regs
    barrierCache5 := Option.none
    lsdaConsulted := consulted
    frameStepped := true }

/-- rust_eh_personality (unwind.rs lines 92-171). Inputs: the raw state
word, the exception-object pointer, the LSDA decode outcome (oracle for
find_eh_action: Except for the Result), the __gnu_unwind_frame outcome
(oracle), and the context's core register file. -/
def rust_eh_personality (state : Nat) (excPtr : Nat)
    (decode : Except Unit EHAction) (frameStep : ReasonCode)
    (regs : RegFile) : PersonalityResult :=
  let action := state &&& US_ACTION_MASK
  if action = US_VIRTUAL_UNWIND_FRAME then
    if state &&& US_FORCE_UNWIND ≠ 0 then
      continue_unwind frameStep regs false
    else
      personalityBody true state excPtr decode frameStep regs
  else if action = US_UNWIND_FRAME_STARTING then
    personalityBody false state excPtr decode frameStep regs
  else if action = US_UNWIND_FRAME_RESUME then
    continue_unwind frameStep regs false
  else
    { code := ReasonCode.failure, regs := regs, barrierCache5 := Option.none
      lsdaConsulted := false, frameStepped := false }
where
  /-- The shared tail after phase dispatch: stash the exception object in
  the scratch register r12, decode the LSDA, and dispatch on the phase and
  the decoded action. -/
  personalityBody (search_phase : Bool) (state : Nat) (excPtr : Nat)
      (decode : Except Unit EHAction) (frameStep : ReasonCode)
      (regs : RegFile) : PersonalityResult :=
    let regs := UnwindSetGR regs UNWIND_POINTER_REG excPtr
    match decode with
    | Except.error _ =>
      { code := ReasonCode.failure, regs := regs, barrierCache5 := Option.none
        lsdaConsulted := true, frameStepped := false }
    | Except.ok eh_action =>
      if search_phase then
        match eh_action with
        | EHAction.none | EHAction.cleanup _ =>
          continue_unwind frameStep regs true
        | EHAction.catch _ | EHAction.filter _ =>
          { code := ReasonCode.handlerFound, regs := regs
            barrierCache5 := Option.some (UnwindGetGR regs UNWIND_SP_REG)
            lsdaConsulted := true, frameStepped := false }
        | EHAction.terminate =>
          { code := ReasonCode.failure, regs := regs, barrierCache5 := Option.none
            lsdaConsulted := true, frameStepped := false }
      else
        match eh_action with
        | EHAction.none => continue_unwind frameStep regs true
        | EHAction.filter lpad =>
          if state &&& US_FORCE_UNWIND ≠ 0 then
            continue_unwind frameStep regs true
          else
            installContext excPtr lpad regs
        | EHAction.cleanup lpad | EHAction.catch lpad =>
          installContext excPtr lpad regs
        | EHAction.terminate =>
          { code := ReasonCode.failure, regs := regs, barrierCache5 := Option.none
            lsdaConsulted := true, frameStepped := false }
  /-- The install-context arm (unwind.rs lines 149-154): r0 := exception
  object, r1 := null, IP := landing pad (with thumb-bit propagation). -/
  installContext (excPtr : Nat) (lpad : Nat) (regs : RegFile) :
      PersonalityResult :=
    let regs := UnwindSetGR regs UNWIND_DATA_REG.1 excPtr
    let regs := UnwindSetGR regs UNWIND_DATA_REG.2 0
    let regs := UnwindSetIP regs lpad
    { code := ReasonCode.installContext, regs := regs
      barrierCache5 := Option.none, lsdaConsulted := true, frameStepped := false }

/-- The exception-handling context built by find_eh_action in
personality.rs: the (adjusted) instruction pointer and the function start
address; the relocation-base accessors are lazy closures not needed for
the claims about the IP field. -/
structure EHContext where
  ip : Nat
  func_start : Nat
deriving DecidableEq, Repr

/-- find_eh_action (personality.rs lines 7-22), restricted to the context
construction: read the IP through _Unwind_GetIPInfo, and decrement it by
one (wrapping on 32 bits) unless ip_before_insn was reported nonzero. -/
def find_eh_action_context (regs : RegFile) (regionStart : Nat) : EHContext :=
  let info := UnwindGetIPInfo regs
  let ip := info.1
  let ip_before_instr := info.2
  { ip := if ip_before_instr ≠ 0 then ip else (ip + (2 ^ 32 - 1)) % 2 ^ 32
    func_start := regionStart }

/-- Follows the wording of claim C3, for comparison with the source
behavior: the landing-pad address with its low (thumb) bit replaced by
the given bit — clear the low bit, then or in the low bit of the other
word. The source instead only ors the current low bit in
(UnwindSetIP). -/
def claimReplaceLowBit (v b : Nat) : Nat :=
  (v &&& 0xFFFFFFFE) ||| (b &&& 1)

end PanicUnwind

namespace TaskLocal

/-!
Task-local storage engine, from pros/src/task.rs. One kernel task owns a
fixed array of TLS slots (vTaskSetThreadLocalStoragePointer /
pvTaskGetThreadLocalStoragePointer) and a bump-allocated heap of leaked
cells. The stored type of every LocalKey in the claims is u32, so heap
cells are 32-bit words; address 0 plays the role of the null pointer, and
reading a slot that holds 0 is the Option-None case of
task_local_storage_get (null.as_ref()).
-/

/-- The memory a single task sees: its kernel TLS slot array (index to
stored pointer, 0 = null), the heap (address to 32-bit word) and a bump
allocator for Box::leak allocations (addresses start at 1). -/
structure TaskMem where
  slots : Nat → Nat
  heap : Nat → Nat
  nextAddr : Nat

/-- task_local_storage_set: vTaskSetThreadLocalStoragePointer. -/
def storageSet (m : TaskMem) (index : Nat) (ptr : Nat) : TaskMem :=
  { m with slots := Function.update m.slots index ptr }

/-- task_local_storage_get: pvTaskGetThreadLocalStoragePointer followed by
as_ref, which is None exactly when the slot holds the null pointer. -/
def storageGet (m : TaskMem) (index : Nat) : Option Nat :=
  if m.slots index = 0 then Option.none else Option.some (m.slots index)

/-- Box::leak(Box::new w): allocate a fresh never-freed cell holding the
32-bit word w; returns its address and the new memory. -/
def alloc (m : TaskMem) (w : Nat) : Nat × TaskMem :=
  (m.nextAddr,
    { m with heap := Function.update m.heap m.nextAddr (w % 2 ^ 32)
             nextAddr := m.nextAddr + 1 })

/-- In-place increment of a heap word, as in
next_free_tls_index.get() += 1 on a u32 cell. -/
def heapInc (m : TaskMem) (p : Nat) : TaskMem :=
  { m with heap := Function.update m.heap p ((m.heap p + 1) % 2 ^ 32) }

/-- Memory of a task before any bootstrap: all slots null, heap zeroed,
first free address 1. -/
def emptyMem : TaskMem :=
  { slots := fun _ => 0, heap := fun _ => 0, nextAddr := 1 }

/-- The TLS bootstrap performed by spawn_inner (task.rs lines 45-49):
leak a counter cell UnsafeCell::new 0 and store its address in slot 0. -/
def spawnBootstrap (m : TaskMem) : TaskMem :=
  let a := alloc m 0
  storageSet a.2 0 a.1

/-- The memory of a freshly spawned task. -/
def initMem : TaskMem := spawnBootstrap emptyMem

/-- State of one task together with its entries in the per-key index_map
mappings: key id to the slot index bound for this task (None while the
key was never touched by this task). -/
structure SysState where
  mem : TaskMem
  bindings : Nat → Option Nat

/-- The fresh-task system state: bootstrapped memory, no key bindings. -/
def initState : SysState :=
  { mem := initMem, bindings := fun _ => Option.none }

/-- Everything one LocalKey::with call produces: the 32-bit word the
closure f reads, the state after the call, how many times the key's
index_map mutex was acquired, and the slot index newly assigned when the
first-touch path ran. -/
structure WithOutcome where
  observed : Nat
  readAddr : Nat
  state : SysState
  locks : Nat
  assigned : Option Nat

/-- LocalKey::with (task.rs lines 318-337) for key k with an initializer
producing the 32-bit word iv, executed by the single task of the state.
Option.none models an unwrap panic. Mutex acquisitions counted: the
index_map lock().get on every call, plus the lock().insert on the
first-touch path. -/
def localKeyWith (k : Nat) (iv : Nat) (s : SysState) : Option WithOutcome :=
  match storageGet s.mem 0 with
  | Option.none => Option.none
  | Option.some nfPtr =>
    match s.bindings k with
    | Option.some index =>
      match storageGet s.mem index with
      | Option.none => Option.none
      | Option.some p =>
        Option.some { observed := s.mem.heap p, readAddr := p, state := s
                      locks := 1, assigned := Option.none }
    | Option.none =>
      match storageGet s.mem 0 with
      | Option.none => Option.none
      | Option.some nePtr =>
        let next_empty := s.mem.heap nePtr
        let a := alloc s.mem iv
        let mem1 := storageSet a.2 next_empty a.1
        let bindings1 := Function.update s.bindings k (Option.some next_empty)
        let mem2 := heapInc mem1 nfPtr
        match storageGet mem2 next_empty with
        | Option.none => Option.none
        | Option.some p =>
          Option.some { observed := mem2.heap p
                        readAddr := p
                        state := { mem := mem2, bindings := bindings1 }
                        locks := 2
                        assigned := Option.some next_empty }

/-- Run a sequence of with calls, (key, initializer word) pairs, from a
state, collecting the outcome of each call; Option.none if any call
panics. -/
def runWith : List (Nat × Nat) → SysState → Option (List WithOutcome)
  | [], _ => Option.some []
  | (k, iv) :: rest, s =>
    match localKeyWith k iv s with
    | Option.none => Option.none
    | Option.some o =>
      match runWith rest o.state with
      | Option.none => Option.none
      | Option.some l => Option.some (o :: l)

/-- The state after one successful with call (falling back to the input
state on panic, which does not arise at the uses below). -/
def stateAfter (k : Nat) (iv : Nat) (s : SysState) : SysState :=
  (localKeyWith k iv s).elim s (fun o => o.state)

end TaskLocal

namespace TaskLocal.Race

/-!
Two tasks racing on the first access to the same LocalKey. The only shared
mutable object in the source is the key's index_map HashMap, guarded by
its mutex, and the two racing tasks are distinct HashMap keys (TaskHandle
equality is by the kernel task reference alone), so task A's lock/get and
lock/insert read and write only A's entry. Kernel TLS slots, the counter
cell and the leaked value cells are per-task (the global allocator hands
out disjoint addresses, modelled as per-task memories). Each side of the
product state therefore carries one task's whole view, and a step of one
task touches only its own side; interleaving granularity is one
mutex-protected map operation or one task-private memory operation,
matching the critical sections of the source.
-/

/-- One task's view mid-way through a LocalKey::with call: a program
counter into the body of with (task.rs lines 318-337), the task's memory,
its entry in the key's index_map, and the local variables of the body.
pc 8 is normal completion; pc 100 is an unwrap panic. -/
structure Side where
  pc : Nat
  mem : TaskMem
  binding : Option Nat
  nfPtr : Nat
  next_empty : Nat
  valAddr : Nat
  observed : Option Nat
  iv : Nat

/-- One atomic step of a task executing LocalKey::with:
pc 0: current(), reading the counter pointer from slot 0;
pc 1: index_map.lock().get(self) under the mutex (hit goes to pc 10);
pc 2: re-read slot 0 and dereference next_empty (line 327);
pc 3: Box::leak(Box::new(init()));
pc 4: task_local_storage_set(task, val, next_empty);
pc 5: index_map.lock().insert(self, next_empty) under the mutex;
pc 6: *next_free_tls_index += 1;
pc 7: re-read the slot and hand the value to f;
pc 10: hit path, read the bound slot and hand the value to f. -/
def step (t : Side) : Side :=
  match t.pc with
  | 0 =>
    match storageGet t.mem 0 with
    | Option.none => { t with pc := 100 }
    | Option.some q => { t with nfPtr := q, pc := 1 }
  | 1 =>
    match t.binding with
    | Option.some _ => { t with pc := 10 }
    | Option.none => { t with pc := 2 }
  | 2 =>
    match storageGet t.mem 0 with
    | Option.none => { t with pc := 100 }
    | Option.some q => { t with next_empty := t.mem.heap q, pc := 3 }
  | 3 =>
    let a := alloc t.mem t.iv
    { t with valAddr := a.1, mem := a.2, pc := 4 }
  | 4 => { t with mem := storageSet t.mem t.next_empty t.valAddr, pc := 5 }
  | 5 => { t with binding := Option.some t.next_empty, pc := 6 }
  | 6 => { t with mem := heapInc t.mem t.nfPtr, pc := 7 }
  | 7 =>
    match storageGet t.mem t.next_empty with
    | Option.none => { t with pc := 100 }
    | Option.some p => { t with observed := Option.some (t.mem.heap p), pc := 8 }
  | 10 =>
    match t.binding with
    | Option.none => { t with pc := 100 }
    | Option.some i =>
      match storageGet t.mem i with
      | Option.none => { t with pc := 100 }
      | Option.some p => { t with observed := Option.some (t.mem.heap p), pc := 8 }
  | _ => t

/-- Schedule step of task A. -/
def stepA (s : Side × Side) : Side × Side := (step s.1, s.2)

/-- Schedule step of task B. -/
def stepB (s : Side × Side) : Side × Side := (s.1, step s.2)

/-- Run a schedule: true schedules a step of task A, false of task B.
A task past the end of its with body steps idly, so every interleaving of
the two bodies is a prefix of some schedule. -/
def exec : List Bool → Side × Side → Side × Side
  | [], s => s
  | b :: rest, s => exec rest (if b then stepA s else stepB s)

/-- Number of A-steps in a schedule. -/
def ctTrue : List Bool → Nat
  | [] => 0
  | true :: r => ctTrue r + 1
  | false :: r => ctTrue r

/-- Number of B-steps in a schedule. -/
def ctFalse : List Bool → Nat
  | [] => 0
  | true :: r => ctFalse r
  | false :: r => ctFalse r + 1

/-- A freshly bootstrapped task about to run its first-ever with call for
the racing key, with initializer word iv. -/
def mkSide (iv : Nat) : Side :=
  { pc := 0, mem := initMem, binding := Option.none, nfPtr := 0
    next_empty := 0, valAddr := 0, observed := Option.none, iv := iv }

/-- The race starting state: task A's key initializer produces 7, task B's
produces 9 (distinct words, so each task's observation identifies whose
storage it read). -/
def raceInit : Side × Side := (mkSide 7, mkSide 9)

/-- A concrete complete schedule: all of task A, then all of task B. -/
def fullSched : List Bool := List.replicate 8 true ++ List.replicate 8 false

end TaskLocal.Race

namespace Spawn

/-- SpawnError (task.rs lines 254-258): the one typed cause of a spawn
failure. -/
inductive SpawnError where
  | TCBNotCreated
deriving DecidableEq, Repr

/-- The kernel's out-of-memory errno (newlib value 12), matched by the
map_errno table in task.rs lines 260-264. -/
def ENOMEM : Nat := 12

/-- Modelled from the spec: the bail_on and map_errno macro definitions
live in crate::error, which is not among the provided sources; per the
spec, kernel task-creation failure is surfaced as a typed error
distinguishing out-of-memory for the task control block from other
causes. The table in task.rs maps errno ENOMEM to
SpawnError.TCBNotCreated; an errno outside the table has no typed
mapping (Option.none). -/
def spawnErrorFromErrno (errno : Nat) : Option SpawnError :=
  if errno = ENOMEM then Option.some SpawnError.TCBNotCreated
  else Option.none

/-- Outcome of the pros_sys task_create primitive: a task reference, or
the null return together with the errno the kernel set. -/
inductive CreateResult where
  | ok (task : Nat)
  | fail (errno : Nat)

/-- spawn_inner (task.rs lines 21-53) restricted to its fallible
skeleton: bail_on compares the task_create return against null and on
failure returns Err of the errno-mapped error; on success the handle is
returned (after the TLS bootstrap, modelled by TaskLocal.spawnBootstrap
for the storage claims). -/
def spawn_inner (r : CreateResult) : Except (Option SpawnError) Nat :=
  match r with
  | CreateResult.ok task => Except.ok task
  | CreateResult.fail errno => Except.error (spawnErrorFromErrno errno)

/-- Builder::spawn (task.rs lines 160-170): delegates to spawn_inner with
the builder's priority, stack depth and name, none of which affect the
error path. -/
def builderSpawn (r : CreateResult) : Except (Option SpawnError) Nat :=
  spawn_inner r

end Spawn

/-!
## Theorems

One theorem per claim of the specification, with shared helper lemmas.
-/

namespace PanicUnwind

/-- C3, counterexample: the claim states that the install path sets the
instruction pointer to the landing pad with its low thumb bit replaced by
the low bit of the current instruction pointer. At landing pad 1 and an
even current instruction pointer the source sets the register to 1
(bitwise or of the thumb bit), while the replaced value would be 0. -/
theorem c3_counterexample :
    (rust_eh_personality 1 5 (Except.ok (EHAction.catch 1))
        ReasonCode.noReason (fun _ => 0)).regs UNWIND_IP_REG
      ≠ claimReplaceLowBit 1 ((fun _ => (0 : Nat)) UNWIND_IP_REG) := by
  decide

/-- C3, amended: for every frame whose LSDA decodes to Catch lpad entered
in the cleanup phase (action bits UnwindFrameStarting) without the
force-unwind flag, the routine writes the exception-object pointer into
data register r0 and null into r1, sets the instruction-pointer register
to lpad bitwise-ored with the low (thumb) bit of the current instruction
pointer — which equals lpad with its low bit replaced whenever lpad's own
low bit is clear — and returns the install-context code. -/
theorem c3_cleanup_catch_installs (st excPtr lpad : Nat)
    (frameStep : ReasonCode) (regs : RegFile)
    (hact : st &&& US_ACTION_MASK = US_UNWIND_FRAME_STARTING)
    (_hforce : st &&& US_FORCE_UNWIND = 0) :
    (rust_eh_personality st excPtr (Except.ok (EHAction.catch lpad)) frameStep
        regs).code = ReasonCode.installContext ∧
    (rust_eh_personality st excPtr (Except.ok (EHAction.catch lpad)) frameStep
        regs).regs UNWIND_DATA_REG.1 = excPtr ∧
    (rust_eh_personality st excPtr (Except.ok (EHAction.catch lpad)) frameStep
        regs).regs UNWIND_DATA_REG.2 = 0 ∧
    (rust_eh_personality st excPtr (Except.ok (EHAction.catch lpad)) frameStep
        regs).regs UNWIND_IP_REG = lpad ||| ((regs UNWIND_IP_REG) &&& 1) := by
  have h1 : st &&& 3 = 1 := hact
  simp [rust_eh_personality, rust_eh_personality.personalityBody,
    rust_eh_personality.installContext, UnwindSetGR, UnwindSetIP, UnwindGetGR,
    UnwindGetIP, UNWIND_DATA_REG, UNWIND_IP_REG, UNWIND_POINTER_REG,
    US_ACTION_MASK, US_VIRTUAL_UNWIND_FRAME, US_UNWIND_FRAME_STARTING,
    US_UNWIND_FRAME_RESUME, h1, Function.update]

/-- C3, witness for the amended theorem at state word 1, exception object
5, landing pad 2, current instruction pointer 4097 (thumb bit set). -/
theorem c3_cleanup_catch_installs_witness :
    (rust_eh_personality 1 5 (Except.ok (EHAction.catch 2))
        ReasonCode.noReason (fun _ => 4097)).code = ReasonCode.installContext ∧
    (rust_eh_personality 1 5 (Except.ok (EHAction.catch 2))
        ReasonCode.noReason (fun _ => 4097)).regs UNWIND_DATA_REG.1 = 5 ∧
    (rust_eh_personality 1 5 (Except.ok (EHAction.catch 2))
        ReasonCode.noReason (fun _ => 4097)).regs UNWIND_DATA_REG.2 = 0 ∧
    (rust_eh_personality 1 5 (Except.ok (EHAction.catch 2))
        ReasonCode.noReason (fun _ => 4097)).regs UNWIND_IP_REG
      = 2 ||| (((fun _ => (4097 : Nat)) UNWIND_IP_REG) &&& 1) :=
  c3_cleanup_catch_installs 1 5 2 ReasonCode.noReason (fun _ => 4097)
    (by decide) (by decide)

/-- C4: for every frame whose LSDA decodes to Cleanup or None entered in
the search phase (action bits VirtualUnwindFrame, force-unwind flag
clear), the routine performs one native frame-unwind step, returns
continue if that step reports no-reason and failure otherwise, and never
returns the handler-found code. -/
theorem c4_search_cleanup_continues (st excPtr : Nat) (a : EHAction)
    (frameStep : ReasonCode) (regs : RegFile)
    (hact : st &&& US_ACTION_MASK = US_VIRTUAL_UNWIND_FRAME)
    (hforce : st &&& US_FORCE_UNWIND = 0)
    (ha : a = EHAction.none ∨ ∃ l, a = EHAction.cleanup l) :
    (rust_eh_personality st excPtr (Except.ok a) frameStep
        regs).frameStepped = true ∧
    (rust_eh_personality st excPtr (Except.ok a) frameStep regs).code
      = (if frameStep = ReasonCode.noReason then ReasonCode.continueUnwind
          else ReasonCode.failure) ∧
    (rust_eh_personality st excPtr (Except.ok a) frameStep regs).code
      ≠ ReasonCode.handlerFound := by
  have h0 : st &&& 3 = 0 := hact
  have h8 : st &&& 8 = 0 := hforce
  rcases ha with ha | ⟨l, ha⟩ <;> subst ha <;>
    refine ⟨?_, ?_, ?_⟩ <;>
    rcases eq_or_ne frameStep ReasonCode.noReason with hf | hf <;>
    simp [rust_eh_personality, rust_eh_personality.personalityBody,
      continue_unwind, UnwindSetGR, US_ACTION_MASK, US_VIRTUAL_UNWIND_FRAME,
      US_UNWIND_FRAME_STARTING, US_UNWIND_FRAME_RESUME, US_FORCE_UNWIND,
      h0, h8, hf]

/-- C4, witness at state word 0, a Cleanup frame, successful native
step. -/
theorem c4_search_cleanup_continues_witness :
    (rust_eh_personality 0 5 (Except.ok (EHAction.cleanup 6))
        ReasonCode.noReason (fun _ => 0)).frameStepped = true ∧
    (rust_eh_personality 0 5 (Except.ok (EHAction.cleanup 6))
        ReasonCode.noReason (fun _ => 0)).code
      = (if (ReasonCode.noReason : ReasonCode) = ReasonCode.noReason
          then ReasonCode.continueUnwind else ReasonCode.failure) ∧
    (rust_eh_personality 0 5 (Except.ok (EHAction.cleanup 6))
        ReasonCode.noReason (fun _ => 0)).code ≠ ReasonCode.handlerFound :=
  c4_search_cleanup_continues 0 5 (EHAction.cleanup 6) ReasonCode.noReason
    (fun _ => 0) (by decide) (by decide) (Or.inr ⟨6, rfl⟩)

/-- C5: for every frame whose LSDA decodes to Filter entered in the
cleanup phase with the force-unwind flag set, the routine performs one
native frame-unwind step, returns continue if the step reports no-reason
and failure otherwise, never returns the install-context code, and leaves
the instruction-pointer register unchanged (no landing-pad context is
installed). -/
theorem c5_forced_filter_skips (st excPtr lpad : Nat)
    (frameStep : ReasonCode) (regs : RegFile)
    (hact : st &&& US_ACTION_MASK = US_UNWIND_FRAME_STARTING)
    (hforce : st &&& US_FORCE_UNWIND ≠ 0) :
    (rust_eh_personality st excPtr (Except.ok (EHAction.filter lpad))
        frameStep regs).frameStepped = true ∧
    (rust_eh_personality st excPtr (Except.ok (EHAction.filter lpad))
        frameStep regs).code
      = (if frameStep = ReasonCode.noReason then ReasonCode.continueUnwind
          else ReasonCode.failure) ∧
    (rust_eh_personality st excPtr (Except.ok (EHAction.filter lpad))
        frameStep regs).code ≠ ReasonCode.installContext ∧
    (rust_eh_personality st excPtr (Except.ok (EHAction.filter lpad))
        frameStep regs).regs UNWIND_IP_REG = regs UNWIND_IP_REG := by
  have h1 : st &&& 3 = 1 := hact
  refine ⟨?_, ?_, ?_, ?_⟩ <;>
    rcases eq_or_ne frameStep ReasonCode.noReason with hf | hf <;>
    simp [rust_eh_personality, rust_eh_personality.personalityBody,
      continue_unwind, UnwindSetGR, UNWIND_IP_REG, UNWIND_POINTER_REG,
      US_ACTION_MASK, US_VIRTUAL_UNWIND_FRAME, US_UNWIND_FRAME_STARTING,
      US_UNWIND_FRAME_RESUME, h1, hforce, hf, Function.update]

/-- C5, witness at state word 9 (UnwindFrameStarting with the
force-unwind bit), a Filter frame, successful native step. -/
theorem c5_forced_filter_skips_witness :
    (rust_eh_personality 9 5 (Except.ok (EHAction.filter 6))
        ReasonCode.noReason (fun _ => 3)).frameStepped = true ∧
    (rust_eh_personality 9 5 (Except.ok (EHAction.filter 6))
        ReasonCode.noReason (fun _ => 3)).code
      = (if (ReasonCode.noReason : ReasonCode) = ReasonCode.noReason
          then ReasonCode.continueUnwind else ReasonCode.failure) ∧
    (rust_eh_personality 9 5 (Except.ok (EHAction.filter 6))
        ReasonCode.noReason (fun _ => 3)).code ≠ ReasonCode.installContext ∧
    (rust_eh_personality 9 5 (Except.ok (EHAction.filter 6))
        ReasonCode.noReason (fun _ => 3)).regs UNWIND_IP_REG
      = (fun _ => (3 : Nat)) UNWIND_IP_REG :=
  c5_forced_filter_skips 9 5 6 ReasonCode.noReason (fun _ => 3)
    (by decide) (by decide)

/-- C6: the state dispatch of the personality routine. On
VirtualUnwindFrame with the force-unwind flag set, and on
UnwindFrameResume, the routine performs one native frame-unwind step and
returns continue or failure without consulting the LSDA; for any state
word whose masked action bits are none of VirtualUnwindFrame,
UnwindFrameStarting or UnwindFrameResume it returns the failure code
immediately, stepping no frame and consulting no LSDA. -/
theorem c6_state_dispatch (st excPtr : Nat) (decode : Except Unit EHAction)
    (frameStep : ReasonCode) (regs : RegFile) :
    (st &&& US_ACTION_MASK = US_VIRTUAL_UNWIND_FRAME →
      st &&& US_FORCE_UNWIND ≠ 0 →
      (rust_eh_personality st excPtr decode frameStep regs).frameStepped
          = true ∧
      (rust_eh_personality st excPtr decode frameStep regs).lsdaConsulted
          = false ∧
      (rust_eh_personality st excPtr decode frameStep regs).code
        = (if frameStep = ReasonCode.noReason then ReasonCode.continueUnwind
            else ReasonCode.failure)) ∧
    (st &&& US_ACTION_MASK = US_UNWIND_FRAME_RESUME →
      (rust_eh_personality st excPtr decode frameStep regs).frameStepped
          = true ∧
      (rust_eh_personality st excPtr decode frameStep regs).lsdaConsulted
          = false ∧
      (rust_eh_personality st excPtr decode frameStep regs).code
        = (if frameStep = ReasonCode.noReason then ReasonCode.continueUnwind
            else ReasonCode.failure)) ∧
    (st &&& US_ACTION_MASK ≠ US_VIRTUAL_UNWIND_FRAME →
      st &&& US_ACTION_MASK ≠ US_UNWIND_FRAME_STARTING →
      st &&& US_ACTION_MASK ≠ US_UNWIND_FRAME_RESUME →
      (rust_eh_personality st excPtr decode frameStep regs).code
          = ReasonCode.failure ∧
      (rust_eh_personality st excPtr decode frameStep regs).frameStepped
          = false ∧
      (rust_eh_personality st excPtr decode frameStep regs).lsdaConsulted
          = false) := by
  refine ⟨fun hact hforce => ?_, fun hact => ?_, fun hv hs hr => ?_⟩
  · have h0 : st &&& 3 = 0 := hact
    exact ⟨by simp [rust_eh_personality, continue_unwind, US_ACTION_MASK,
        US_VIRTUAL_UNWIND_FRAME, h0, hforce],
      by simp [rust_eh_personality, continue_unwind, US_ACTION_MASK,
        US_VIRTUAL_UNWIND_FRAME, h0, hforce],
      by simp [rust_eh_personality, continue_unwind, US_ACTION_MASK,
        US_VIRTUAL_UNWIND_FRAME, h0, hforce]⟩
  · have h2 : st &&& 3 = 2 := hact
    exact ⟨by simp [rust_eh_personality, continue_unwind, US_ACTION_MASK,
        US_VIRTUAL_UNWIND_FRAME, US_UNWIND_FRAME_STARTING,
        US_UNWIND_FRAME_RESUME, h2],
      by simp [rust_eh_personality, continue_unwind, US_ACTION_MASK,
        US_VIRTUAL_UNWIND_FRAME, US_UNWIND_FRAME_STARTING,
        US_UNWIND_FRAME_RESUME, h2],
      by simp [rust_eh_personality, continue_unwind, US_ACTION_MASK,
        US_VIRTUAL_UNWIND_FRAME, US_UNWIND_FRAME_STARTING,
        US_UNWIND_FRAME_RESUME, h2]⟩
  · have hb : st &&& 3 ≤ 3 := Nat.and_le_right
    have hv' : st &&& 3 ≠ 0 := hv
    have hs' : st &&& 3 ≠ 1 := hs
    have hr' : st &&& 3 ≠ 2 := hr
    have h3 : st &&& 3 = 3 := by omega
    exact ⟨by simp [rust_eh_personality, US_ACTION_MASK,
        US_VIRTUAL_UNWIND_FRAME, US_UNWIND_FRAME_STARTING,
        US_UNWIND_FRAME_RESUME, h3],
      by simp [rust_eh_personality, US_ACTION_MASK, US_VIRTUAL_UNWIND_FRAME,
        US_UNWIND_FRAME_STARTING, US_UNWIND_FRAME_RESUME, h3],
      by simp [rust_eh_personality, US_ACTION_MASK, US_VIRTUAL_UNWIND_FRAME,
        US_UNWIND_FRAME_STARTING, US_UNWIND_FRAME_RESUME, h3]⟩

/-- C6, witness: the three dispatch arms at state words 8
(VirtualUnwindFrame forced), 2 (UnwindFrameResume) and 3 (undefined). -/
theorem c6_state_dispatch_witness :
    ((rust_eh_personality 8 5 (Except.ok EHAction.none) ReasonCode.noReason
        (fun _ => 0)).frameStepped = true ∧
      (rust_eh_personality 8 5 (Except.ok EHAction.none) ReasonCode.noReason
        (fun _ => 0)).lsdaConsulted = false ∧
      (rust_eh_personality 8 5 (Except.ok EHAction.none) ReasonCode.noReason
        (fun _ => 0)).code
        = (if (ReasonCode.noReason : ReasonCode) = ReasonCode.noReason
            then ReasonCode.continueUnwind else ReasonCode.failure)) ∧
    ((rust_eh_personality 2 5 (Except.ok EHAction.none) ReasonCode.noReason
        (fun _ => 0)).frameStepped = true) ∧
    ((rust_eh_personality 3 5 (Except.ok EHAction.none) ReasonCode.noReason
        (fun _ => 0)).code = ReasonCode.failure) :=
  ⟨(c6_state_dispatch 8 5 (Except.ok EHAction.none) ReasonCode.noReason
      (fun _ => 0)).1 (by decide) (by decide),
    ((c6_state_dispatch 2 5 (Except.ok EHAction.none) ReasonCode.noReason
      (fun _ => 0)).2.1 (by decide)).1,
    ((c6_state_dispatch 3 5 (Except.ok EHAction.none) ReasonCode.noReason
      (fun _ => 0)).2.2 (by decide) (by decide) (by decide)).1⟩

/-- C10: find_eh_action builds the exception-handling context with an
instruction pointer equal to the context's r15 value with its low thumb
bit cleared and then unconditionally decremented by one with 32-bit
wrap-around, for every register file: _Unwind_GetIPInfo always reports
ip_before_insn 0 on this target, so the return-address adjustment is
never skipped. -/
theorem c10_return_address_adjusted (regs : RegFile) (regionStart : Nat) :
    (find_eh_action_context regs regionStart).ip
      = (((regs UNWIND_IP_REG) &&& 0xFFFFFFFE) + (2 ^ 32 - 1)) % 2 ^ 32 ∧
    (UnwindGetIPInfo regs).2 = 0 := by
  simp [find_eh_action_context, UnwindGetIPInfo, UnwindGetIP, UnwindGetGR,
    UNWIND_IP_REG]

end PanicUnwind

namespace TaskLocal

/-- C1: evaluation at the failing input. The spec claims the counter cell
is bootstrapped so that the first key assignment never reuses the
reserved counter slot 0 and that assigned indices are strictly
increasing. The source bootstraps the counter to 0 (spawn_inner leaks
UnsafeCell::new 0), so a freshly spawned task touching two distinct keys
with zero-producing initializers is assigned slot 0 and then slot 0
again: the first assignment overwrites the reserved counter slot, and the
sequence 0, 0 is neither above slot 0 nor strictly increasing. -/
theorem c1_first_assignments_reuse_slot_zero :
    ((runWith [(1, 0), (2, 0)] initState).map
        (fun l => l.map (fun o => o.assigned)))
      = Option.some [Option.some 0, Option.some 0] := by
  decide

/-- C2: evaluation at the failing input. A task accesses key 1
(initializer 0), then key 2 (initializer 9), then key 1 again. The first
call for key 1 reads its freshly allocated cell at address 2 and observes
0; because the counter was bootstrapped to 0, both keys are assigned slot
0, and the later call for the same (key 1, task) pair reads address 3 —
key 2's storage — observing 9. The mapping entry itself is never
reassigned (both calls resolve slot 0), but the call does not resolve to
the same underlying storage. -/
theorem c2_same_pair_storage_diverges :
    ((runWith [(1, 0), (2, 9), (1, 0)] initState).map
        (fun l => l.map (fun o => (o.observed, o.readAddr, o.assigned))))
      = Option.some [(0, 2, Option.some 0), (9, 3, Option.some 0),
          (9, 3, Option.none)] := by
  decide

/-- C7, counterexample: the claim states a repeat access proceeds without
acquiring the key's mutex. After a first access to key 1, a second call
for the same key acquires the index_map mutex once (for the lock().get
consultation), not zero times. -/
theorem c7_counterexample :
    ¬ ((localKeyWith 1 7 (stateAfter 1 7 initState)).map (fun o => o.locks)
        = Option.some 0) := by
  decide

/-- C7, amended: a call to LocalKey::with by a task that already has a
slot bound for the key acquires the key's mutex exactly once — to consult
the mapping — and is otherwise a read: it reads the value through the
kernel slot lookup and mutates neither the mapping, nor the counter, nor
any kernel slot (the resulting state is the input state). -/
theorem c7_repeat_access_locked_readonly (k iv i p q : Nat) (s : SysState)
    (hb : s.bindings k = Option.some i)
    (h0 : storageGet s.mem 0 = Option.some q)
    (hi : storageGet s.mem i = Option.some p) :
    localKeyWith k iv s
      = Option.some { observed := s.mem.heap p, readAddr := p, state := s
                      locks := 1, assigned := Option.none } := by
  simp only [localKeyWith, h0, hb, hi]

/-- C7, witness for the amended theorem: the state after a first access
to key 1 with initializer 7. -/
theorem c7_repeat_access_locked_readonly_witness :
    localKeyWith 1 7 (stateAfter 1 7 initState)
      = Option.some { observed := (stateAfter 1 7 initState).mem.heap 2
                      readAddr := 2, state := stateAfter 1 7 initState
                      locks := 1, assigned := Option.none } :=
  c7_repeat_access_locked_readonly 1 7 0 2 2 (stateAfter 1 7 initState)
    (by decide) (by decide) (by decide)

end TaskLocal

namespace TaskLocal.Race

/-- Any schedule acts componentwise: the A-steps iterate the with body on
task A's side and the B-steps on task B's side, because every atomic step
of one task reads and writes only that task's component of the state. -/
theorem exec_componentwise (sched : List Bool) :
    ∀ x y : Side,
      exec sched (x, y) = (step^[ctTrue sched] x, step^[ctFalse sched] y) := by
  induction sched with
  | nil => intro x y; rfl
  | cons b rest ih =>
    intro x y
    cases b
    · show exec rest (x, step y) = _
      rw [ih]
      simp [ctTrue, ctFalse, Function.iterate_succ_apply]
    · show exec rest (step x, y) = _
      rw [ih]
      simp [ctTrue, ctFalse, Function.iterate_succ_apply]

/-- Once a side has taken 8 steps it is finished, and further steps leave
it unchanged. -/
theorem step_past (s0 : Side) (hfix : step (step^[8] s0) = step^[8] s0)
    {n : Nat} (hn : 8 ≤ n) : step^[n] s0 = step^[8] s0 := by
  have h : n = (n - 8) + 8 := by omega
  rw [h, Function.iterate_add_apply]
  exact Function.iterate_fixed hfix (n - 8)

/-- Task A's side is stationary after its 8 steps. -/
theorem stepFixA : step (step^[8] (mkSide 7)) = step^[8] (mkSide 7) := rfl

/-- Task B's side is stationary after its 8 steps. -/
theorem stepFixB : step (step^[8] (mkSide 9)) = step^[8] (mkSide 9) := rfl

/-- At every point of task A's execution its binding for the key is
either still absent or the one slot index 0 it inserts: at most one slot
is ever assigned to the (key, task A) pair. -/
theorem bindingA_at_most_one : ∀ n,
    (step^[n] (mkSide 7)).binding = Option.none ∨
    (step^[n] (mkSide 7)).binding = Option.some 0 := by
  intro n
  rcases le_or_lt n 8 with h | h
  · interval_cases n <;> decide
  · rw [step_past (mkSide 7) stepFixA (le_of_lt h)]
    decide

/-- At every point of task B's execution its binding for the key is
either still absent or the one slot index 0 it inserts. -/
theorem bindingB_at_most_one : ∀ n,
    (step^[n] (mkSide 9)).binding = Option.none ∨
    (step^[n] (mkSide 9)).binding = Option.some 0 := by
  intro n
  rcases le_or_lt n 8 with h | h
  · interval_cases n <;> decide
  · rw [step_past (mkSide 9) stepFixB (le_of_lt h)]
    decide

/-- C8: two tasks race on the first access to the same key (task A's
initializer produces 7, task B's produces 9). Under every interleaving of
the two with bodies at the granularity of the mutex-protected map
operations, each (key, task) pair only ever holds at most one slot
binding, and in every schedule in which both bodies complete, exactly one
slot is bound per task in the mapping and each task's closure observes
the value its own task allocated and initialized — neither task resolves
to the other task's slot entry or storage. -/
theorem c8_first_touch_race_safe (sched : List Bool) :
    ((exec sched raceInit).1.binding = Option.none ∨
      (exec sched raceInit).1.binding = Option.some 0) ∧
    ((exec sched raceInit).2.binding = Option.none ∨
      (exec sched raceInit).2.binding = Option.some 0) ∧
    (8 ≤ ctTrue sched → 8 ≤ ctFalse sched →
      (exec sched raceInit).1.binding = Option.some 0 ∧
      (exec sched raceInit).2.binding = Option.some 0 ∧
      (exec sched raceInit).1.observed = Option.some 7 ∧
      (exec sched raceInit).2.observed = Option.some 9) := by
  have he : exec sched raceInit
      = (step^[ctTrue sched] (mkSide 7), step^[ctFalse sched] (mkSide 9)) :=
    exec_componentwise sched (mkSide 7) (mkSide 9)
  rw [he]
  refine ⟨bindingA_at_most_one _, bindingB_at_most_one _, fun h1 h2 => ?_⟩
  show (step^[ctTrue sched] (mkSide 7)).binding = Option.some 0 ∧
    (step^[ctFalse sched] (mkSide 9)).binding = Option.some 0 ∧
    (step^[ctTrue sched] (mkSide 7)).observed = Option.some 7 ∧
    (step^[ctFalse sched] (mkSide 9)).observed = Option.some 9
  rw [step_past (mkSide 7) stepFixA h1, step_past (mkSide 9) stepFixB h2]
  exact ⟨by decide, by decide, by decide, by decide⟩

/-- C8, witness: the schedule running all of task A and then all of task
B. -/
theorem c8_first_touch_race_safe_witness :
    (exec fullSched raceInit).1.binding = Option.some 0 ∧
    (exec fullSched raceInit).2.binding = Option.some 0 ∧
    (exec fullSched raceInit).1.observed = Option.some 7 ∧
    (exec fullSched raceInit).2.observed = Option.some 9 :=
  (c8_first_touch_race_safe fullSched).2.2 (by decide) (by decide)

end TaskLocal.Race

namespace Spawn

/-- C9: task-creation failure is surfaced as a typed error. When the
kernel create-task primitive fails, Builder::spawn returns an error
value; the out-of-memory errno ENOMEM maps to the distinguished
TCBNotCreated variant, and no other errno maps to that variant. -/
theorem c9_spawn_failure_typed (e : Nat) :
    (∃ err, builderSpawn (CreateResult.fail e) = Except.error err) ∧
    builderSpawn (CreateResult.fail ENOMEM)
      = Except.error (Option.some SpawnError.TCBNotCreated) ∧
    (e ≠ ENOMEM →
      builderSpawn (CreateResult.fail e)
        ≠ Except.error (Option.some SpawnError.TCBNotCreated)) := by
  refine ⟨⟨spawnErrorFromErrno e, rfl⟩, rfl, fun h => ?_⟩
  simp [builderSpawn, spawn_inner, spawnErrorFromErrno, h]

/-- C9, witness at errno 13 (not ENOMEM). -/
theorem c9_spawn_failure_typed_witness :
    builderSpawn (CreateResult.fail 13)
      ≠ Except.error (Option.some SpawnError.TCBNotCreated) :=
  (c9_spawn_failure_typed 13).2.2 (by decide)

end Spawn
